import Mathlib

/-!
Shallow embedding of the glucose "Bio-Time" analysis pipeline (src/app.py).

Floats are modelled as exact rationals (ℚ).  Where the source's numpy
float arithmetic can produce non-finite values (division by zero in
`compute_dE_pct`), values are modelled by `PFloat`, a rational extended
with the IEEE specials `inf`, `-inf` and `nan`; numpy float division by
zero does not raise, it yields one of those specials with a warning.
The Python `None` placeholder at index 0 of the step-change list is
modelled by `Option.none` (list entries are `Option PFloat`).
-/

namespace Glucose

/-- Lower reference glucose bound (default argument `g_min=3.0`). -/
def gMin : ℚ := 3

/-- Upper reference glucose bound (default argument `g_max=25.0`). -/
def gMax : ℚ := 25

/-- `np.clip(x, lo, hi)` for scalars with `lo ≤ hi`. -/
def clip (x lo hi : ℚ) : ℚ := min (max x lo) hi

/-- Per-sample T of `compute_T_E`: `T = clip((g - g_min)/(g_max - g_min), 0, 1)`. -/
def compute_T (g : ℚ) : ℚ := clip ((g - gMin) / (gMax - gMin)) 0 1

/-- Per-sample E of `compute_T_E`: `E = 1.0 - T**2`. -/
def compute_E (g : ℚ) : ℚ := 1 - (compute_T g) ^ 2

/-- `compute_T_E(g_values)`: returns the pair `(E, T)` of parallel sequences.
The numpy version vectorises the scalar maps above over the input array;
it imposes no constraint on the input length. -/
def compute_T_E (g_values : List ℚ) : List ℚ × List ℚ :=
  (g_values.map compute_E, g_values.map compute_T)

/-- A numpy float64 value as it occurs in this program: either a finite
value (held exactly as a rational) or one of the IEEE specials. -/
inductive PFloat where
  | num (q : ℚ)
  | inf
  | ninf
  | nan
deriving DecidableEq

/-- Finiteness of a modelled float. -/
def PFloat.finite : PFloat → Bool
  | .num _ => true
  | _ => false

/-- IEEE addition on modelled floats (exact on finite values). -/
def PFloat.add : PFloat → PFloat → PFloat
  | .nan, _ => .nan
  | _, .nan => .nan
  | .inf, .ninf => .nan
  | .ninf, .inf => .nan
  | .inf, _ => .inf
  | _, .inf => .inf
  | .ninf, _ => .ninf
  | _, .ninf => .ninf
  | .num a, .num b => .num (a + b)

/-- One step of `compute_dE_pct`: `(E[i] - E[i-1]) / E[i-1] * 100.0` where
`a = E[i]` and `b = E[i-1]`.  numpy float division by zero yields `inf`,
`-inf` or `nan` according to the sign of the numerator (here `a - 0 = a`);
multiplying a special by `100.0` leaves it unchanged. -/
def stepDiv (a b : ℚ) : PFloat :=
  if b = 0 then
    if 0 < a then .inf else if a < 0 then .ninf else .nan
  else .num ((a - b) / b * 100)

/-- `compute_dE_pct(E)`: `deltas = [None]` followed by one entry per
consecutive pair `(E[i-1], E[i])`, `i = 1 .. len(E)-1`. -/
def compute_dE_pct (E : List ℚ) : List (Option PFloat) :=
  Option.none :: (E.zip E.tail).map (fun p => some (stepDiv p.2 p.1))

/-- The caller's aggregate (`app.py` lines 165–166):
`steps = dE[1:]`, `net = sum([x for x in steps if x is not None])`.
Python `sum` starts from 0 and folds from the left. -/
def net (deltas : List (Option PFloat)) : PFloat :=
  ((deltas.drop 1).filterMap id).foldl PFloat.add (.num 0)

/-- `np.min(E)` for a nonempty list (the empty case never occurs in the
program; numpy raises there). -/
def listMin : List ℚ → ℚ
  | [] => 0
  | x :: xs => xs.foldl min x

/-- `np.mean(E)` = sum divided by length. -/
def listMean (E : List ℚ) : ℚ := E.sum / (E.length : ℚ)

/-- Reason sentence for GREEN (verbatim from the source). -/
def greenReason : String :=
  "GREEN – mean Bio-Time level remains close to the pre-meal state; the contraction of biological time over this meal is mild."

/-- Reason sentence for YELLOW (verbatim from the source). -/
def yellowReason : String :=
  "YELLOW – mean Bio-Time level is moderately reduced; this meal consumes a noticeable fraction of regulatory time."

/-- Reason sentence for RED (verbatim from the source). -/
def redReason : String :=
  "RED – mean Bio-Time level is markedly reduced; this meal compresses biological time and limits recovery windows."

/-- The threshold chain of `classify_with_reason`, which assigns status and
reason from `E_mean_rel` alone:
`>= 90.0 → GREEN`, `elif >= 75.0 → YELLOW`, `else → RED`. -/
def statusReasonOf (rel : ℚ) : String × String :=
  if 90 ≤ rel then ("GREEN", greenReason)
  else if 75 ≤ rel then ("YELLOW", yellowReason)
  else ("RED", redReason)

/-- Result record of `classify_with_reason`: the tuple
`(status, reason, E_pre, E_min, E_mean, E_mean_rel)`. -/
structure ClassifyResult where
  status : String
  reason : String
  E_pre : ℚ
  E_min : ℚ
  E_mean : ℚ
  E_mean_rel : ℚ
deriving DecidableEq

/-- `classify_with_reason(E)` from the source:
`E_pre = E[0]`, `E_min = np.min(E)`, `E_mean = np.mean(E)`,
`E_mean_rel = 100.0` if `E_pre == 0` else `(E_mean / E_pre) * 100.0`,
then the threshold chain. -/
def classify_with_reason (E : List ℚ) : ClassifyResult :=
  let E_pre := E.headD 0
  let E_min := listMin E
  let E_mean := listMean E
  let E_mean_rel := if E_pre = 0 then 100 else (E_mean / E_pre) * 100
  let sr := statusReasonOf E_mean_rel
  ⟨sr.1, sr.2, E_pre, E_min, E_mean, E_mean_rel⟩

/-- Advisory block returned for GREEN (verbatim from the source). -/
def guidanceGreen : String :=
  "**Scientific guidance**\n- The overall Bio-Time level stays near the pre-meal baseline.\n- Such meals are compatible with long-term metabolic resilience.\n- Maintain fibre and protein intake; avoid excessive liquid sugars.\n"

/-- Advisory block returned for YELLOW (verbatim from the source). -/
def guidanceYellow : String :=
  "**Scientific guidance**\n- The system accepts a moderate Bio-Time contraction to handle this meal.\n- Repeated YELLOW patterns may accumulate subtle \x27time-debt\x27 – fatigue or brain fog after meals.\n- Reducing fast sugars and adding fibre/protein can lower the Bio-Time cost.\n"

/-- Advisory block returned for every other status (verbatim from the source). -/
def guidanceRed : String :=
  "**Scientific guidance**\n- The meal induces a strong average contraction of biological time.\n- Recurrent RED patterns are compatible with higher metabolic and vascular stress.\n- Consider reducing high-GI and liquid carbohydrates and seeking professional advice if common.\n"

/-- `detailed_guidance(status)`: two guarded early returns, then the RED
block as the fall-through for every other input. -/
def detailed_guidance (status : String) : String :=
  if status = "GREEN" then guidanceGreen
  else if status = "YELLOW" then guidanceYellow
  else guidanceRed

/-! ### Helper lemmas -/

lemma classify_E_mean_rel (E : List ℚ) :
    (classify_with_reason E).E_mean_rel =
      if E.headD 0 = 0 then 100 else listMean E / E.headD 0 * 100 := rfl

lemma classify_status (E : List ℚ) :
    (classify_with_reason E).status
      = (statusReasonOf (classify_with_reason E).E_mean_rel).1 := rfl

lemma classify_reason (E : List ℚ) :
    (classify_with_reason E).reason
      = (statusReasonOf (classify_with_reason E).E_mean_rel).2 := rfl

lemma classify_E_pre (E : List ℚ) : (classify_with_reason E).E_pre = E.headD 0 := rfl

lemma classify_E_min (E : List ℚ) : (classify_with_reason E).E_min = listMin E := rfl

lemma classify_E_mean (E : List ℚ) : (classify_with_reason E).E_mean = listMean E := rfl

lemma statusReasonOf_green {rel : ℚ} (h : 90 ≤ rel) :
    statusReasonOf rel = ("GREEN", greenReason) := by
  simp [statusReasonOf, h]

lemma statusReasonOf_yellow {rel : ℚ} (h75 : 75 ≤ rel) (h90 : rel < 90) :
    statusReasonOf rel = ("YELLOW", yellowReason) := by
  simp [statusReasonOf, h75, not_le.mpr h90]

lemma statusReasonOf_red {rel : ℚ} (h : rel < 75) :
    statusReasonOf rel = ("RED", redReason) := by
  have h90 : ¬ 90 ≤ rel := by linarith
  simp [statusReasonOf, h90, not_le.mpr h]

lemma filterMap_some_eq_map (l : List (ℚ × ℚ)) (f : ℚ × ℚ → PFloat) :
    l.filterMap (fun p => some (f p)) = l.map f := by
  induction l with
  | nil => rfl
  | cons x xs ih => simp [List.filterMap_cons, ih]

lemma stepDiv_zero_finite (a : ℚ) : (stepDiv a 0).finite = false := by
  unfold stepDiv
  rw [if_pos rfl]
  split
  · rfl
  · split <;> rfl

lemma foldl_min_le_init (xs : List ℚ) (a : ℚ) : xs.foldl min a ≤ a := by
  induction xs generalizing a with
  | nil => exact le_refl a
  | cons x xs ih => exact le_trans (ih (min a x)) (min_le_left a x)

lemma foldl_min_le_mem : ∀ (xs : List ℚ) (a x : ℚ), x ∈ xs → xs.foldl min a ≤ x
  | [], _, _, hx => absurd hx (List.not_mem_nil _)
  | y :: ys, a, x, hx => by
    rcases List.mem_cons.mp hx with rfl | hmem
    · calc (x :: ys).foldl min a = ys.foldl min (min a x) := rfl
        _ ≤ min a x := foldl_min_le_init ys (min a x)
        _ ≤ x := min_le_right a x
    · exact foldl_min_le_mem ys (min a y) x hmem

lemma foldl_min_mem (xs : List ℚ) (a : ℚ) : xs.foldl min a = a ∨ xs.foldl min a ∈ xs := by
  induction xs generalizing a with
  | nil => left; rfl
  | cons y ys ih =>
    rcases ih (min a y) with h | h
    · rcases min_cases a y with ⟨hm, _⟩ | ⟨hm, _⟩
      · left; rw [List.foldl_cons, h, hm]
      · right; rw [List.foldl_cons, h, hm]; exact List.mem_cons_self y ys
    · right; exact List.mem_cons_of_mem y h

lemma listMin_le_mem (E : List ℚ) (x : ℚ) (hx : x ∈ E) : listMin E ≤ x := by
  cases E with
  | nil => cases hx
  | cons y ys =>
    rcases List.mem_cons.mp hx with rfl | hmem
    · exact foldl_min_le_init ys x
    · exact foldl_min_le_mem ys y x hmem

lemma listMin_mem (E : List ℚ) (h : E ≠ []) : listMin E ∈ E := by
  cases E with
  | nil => exact absurd rfl h
  | cons y ys =>
    show ys.foldl min y ∈ y :: ys
    rcases foldl_min_mem ys y with h1 | h1
    · rw [h1]; exact List.mem_cons_self y ys
    · exact List.mem_cons_of_mem y h1

lemma mul_length_le_sum (xs : List ℚ) (m : ℚ) (hm : ∀ x ∈ xs, m ≤ x) :
    m * xs.length ≤ xs.sum := by
  induction xs with
  | nil => simp
  | cons y ys ih =>
    have h1 := ih (fun x hx => hm x (List.mem_cons_of_mem y hx))
    have h2 := hm y (List.mem_cons_self y ys)
    simp only [List.sum_cons, List.length_cons]
    push_cast
    have h3 : m * ((ys.length : ℚ) + 1) = m * ys.length + m := by ring
    linarith

/-! ### Claim theorems -/

/-- Claim C1: for every 5-sample input the classifier buckets `E_mean_rel` into
exactly one of the three statuses, with lower bounds inclusive:
`E_mean_rel ≥ 90` gives GREEN, `75 ≤ E_mean_rel < 90` gives YELLOW and
`E_mean_rel < 75` gives RED (so exactly 90 is GREEN and exactly 75 is YELLOW). -/
theorem C1_status_bands (E : List ℚ) (h : E.length = 5) :
    ((classify_with_reason E).status = "GREEN" ↔
        90 ≤ (classify_with_reason E).E_mean_rel) ∧
    ((classify_with_reason E).status = "YELLOW" ↔
        (75 ≤ (classify_with_reason E).E_mean_rel ∧
          (classify_with_reason E).E_mean_rel < 90)) ∧
    ((classify_with_reason E).status = "RED" ↔
        (classify_with_reason E).E_mean_rel < 75) := by
  set rel := (classify_with_reason E).E_mean_rel with hrel
  rw [classify_status, ← hrel]
  rcases lt_or_le rel 75 with h75 | h75
  · rw [statusReasonOf_red h75]
    exact ⟨⟨fun hs => absurd hs (by decide), fun hge => False.elim (by linarith)⟩,
           ⟨fun hs => absurd hs (by decide), fun hy => False.elim (by linarith [hy.1])⟩,
           ⟨fun _ => h75, fun _ => rfl⟩⟩
  · rcases lt_or_le rel 90 with h90 | h90
    · rw [statusReasonOf_yellow h75 h90]
      exact ⟨⟨fun hs => absurd hs (by decide), fun hge => False.elim (by linarith)⟩,
             ⟨fun _ => ⟨h75, h90⟩, fun _ => rfl⟩,
             ⟨fun hs => absurd hs (by decide), fun hlt => False.elim (by linarith)⟩⟩
    · rw [statusReasonOf_green h90]
      exact ⟨⟨fun _ => h90, fun _ => rfl⟩,
             ⟨fun hs => absurd hs (by decide), fun hy => False.elim (by linarith [hy.2])⟩,
             ⟨fun hs => absurd hs (by decide), fun hlt => False.elim (by linarith)⟩⟩

/-- Witness for C1 at the concrete input `E = [1,1,1,1,1]`. -/
theorem C1_status_bands_witness :
    ([1, 1, 1, 1, 1] : List ℚ).length = 5 ∧
    (((classify_with_reason [1, 1, 1, 1, 1]).status = "GREEN" ↔
        90 ≤ (classify_with_reason [1, 1, 1, 1, 1]).E_mean_rel) ∧
    ((classify_with_reason [1, 1, 1, 1, 1]).status = "YELLOW" ↔
        (75 ≤ (classify_with_reason [1, 1, 1, 1, 1]).E_mean_rel ∧
          (classify_with_reason [1, 1, 1, 1, 1]).E_mean_rel < 90)) ∧
    ((classify_with_reason [1, 1, 1, 1, 1]).status = "RED" ↔
        (classify_with_reason [1, 1, 1, 1, 1]).E_mean_rel < 75)) :=
  ⟨rfl, C1_status_bands [1, 1, 1, 1, 1] rfl⟩

/-- Claim C2: `E_mean_rel` is `(E_mean / E_pre) * 100` when `E_pre ≠ 0` and is
`100` by definition when `E_pre = 0`; consequently the all-boundary input
`glucose = [25, 25, 25, 25, 25]` (all `E = 0`, `E_pre = 0`) is classified GREEN. -/
theorem C2_mean_rel_definition (E : List ℚ) :
    ((classify_with_reason E).E_pre = 0 → (classify_with_reason E).E_mean_rel = 100) ∧
    ((classify_with_reason E).E_pre ≠ 0 →
      (classify_with_reason E).E_mean_rel
        = (classify_with_reason E).E_mean / (classify_with_reason E).E_pre * 100) ∧
    (compute_T_E [25, 25, 25, 25, 25]).1 = [0, 0, 0, 0, 0] ∧
    (classify_with_reason ((compute_T_E [25, 25, 25, 25, 25]).1)).status = "GREEN" := by
  refine ⟨?_, ?_, ?_, ?_⟩
  · intro h0
    rw [classify_E_pre] at h0
    rw [classify_E_mean_rel, if_pos h0]
  · intro h0
    rw [classify_E_pre] at h0
    rw [classify_E_mean_rel, classify_E_mean, classify_E_pre, if_neg h0]
  · norm_num [compute_T_E, compute_E, compute_T, clip, gMin, gMax, min_def, max_def]
  · norm_num [classify_with_reason, compute_T_E, compute_E, compute_T, clip, listMean,
      listMin, statusReasonOf, gMin, gMax, min_def, max_def]

/-- Witness for C2 at the concrete input `E = [0,1,1,1,1]`. -/
theorem C2_mean_rel_definition_witness :
    (classify_with_reason [(0 : ℚ), 1, 1, 1, 1]).E_pre = 0 ∧
    (classify_with_reason [(0 : ℚ), 1, 1, 1, 1]).E_mean_rel = 100 :=
  ⟨rfl, (C2_mean_rel_definition [0, 1, 1, 1, 1]).1 rfl⟩

/-- Claim C3 counterexample: for `E = [0,1,1,1,1]` the step at index 1 has a
zero denominator and evaluates to the IEEE special `inf` (no crash), yet the
caller's `net = sum([x for x in steps if x is not None])` keeps it — the sum
is `inf`, not the value `0` obtained by excluding the undefined step and
summing the three remaining (zero) steps. -/
theorem C3_counterexample :
    compute_dE_pct [0, 1, 1, 1, 1]
      = [Option.none, some PFloat.inf, some (PFloat.num 0), some (PFloat.num 0),
          some (PFloat.num 0)] ∧
    net (compute_dE_pct [0, 1, 1, 1, 1]) = PFloat.inf ∧
    net (compute_dE_pct [0, 1, 1, 1, 1]) ≠ PFloat.num (0 + 0 + 0) := by
  have h1 : compute_dE_pct [0, 1, 1, 1, 1]
      = [Option.none, some PFloat.inf, some (PFloat.num 0), some (PFloat.num 0),
          some (PFloat.num 0)] := by
    norm_num [compute_dE_pct, stepDiv]
  have h2 : net (compute_dE_pct [0, 1, 1, 1, 1]) = PFloat.inf := by
    norm_num [net, compute_dE_pct, stepDiv, PFloat.add, List.foldl, List.filterMap]
  exact ⟨h1, h2, by rw [h2]; exact fun hc => PFloat.noConfusion hc⟩

/-- Claim C3 (amended): when some `E[i-1]` is exactly 0 the step-change
calculator emits a non-finite IEEE sentinel (`inf`, `-inf` or `nan`) for that
step and does not crash; however only the leading `None` placeholder is
excluded from the net-shift sum — every step value from index 1 on, finite or
not, participates in the fold, so a zero denominator makes `net` non-finite
rather than being skipped. -/
theorem C3_zero_denominator_step (E : List ℚ) (i : ℕ) (h : i + 1 < E.length)
    (h0 : E.getD i 0 = 0) :
    (∃ v, (compute_dE_pct E).getD (i + 1) Option.none = some v ∧ v.finite = false) ∧
    net (compute_dE_pct E)
      = ((E.zip E.tail).map (fun p => stepDiv p.2 p.1)).foldl PFloat.add (PFloat.num 0) := by
  have hi : i < E.length := by omega
  constructor
  · have hzl : i < (E.zip E.tail).length := by
      rw [List.length_zip, List.length_tail]
      omega
    have hE0 : E[i] = 0 := by rw [← List.getD_eq_getElem E 0 hi]; exact h0
    have hmaplen : i < ((E.zip E.tail).map fun p => some (stepDiv p.2 p.1)).length := by
      simpa using hzl
    have hgetD : (compute_dE_pct E).getD (i + 1) Option.none
        = some (stepDiv E[i + 1] E[i]) := by
      unfold compute_dE_pct
      rw [List.getD_cons_succ, List.getD_eq_getElem _ _ hmaplen, List.getElem_map,
        List.getElem_zip]
      simp [List.getElem_tail]
    refine ⟨stepDiv E[i + 1] E[i], hgetD, ?_⟩
    rw [hE0]
    exact stepDiv_zero_finite _
  · unfold net compute_dE_pct
    simp only [List.drop_succ_cons, List.drop_zero, List.filterMap_map, Function.comp_def,
      id_eq]
    rw [filterMap_some_eq_map]

/-- Witness for the amended C3 at `E = [0,1,1,1,1]`, `i = 0`. -/
theorem C3_zero_denominator_step_witness :
    (0 : ℕ) + 1 < ([0, 1, 1, 1, 1] : List ℚ).length ∧
    ([0, 1, 1, 1, 1] : List ℚ).getD 0 0 = 0 ∧
    ((∃ v, (compute_dE_pct [0, 1, 1, 1, 1]).getD (0 + 1) Option.none = some v ∧
        v.finite = false) ∧
      net (compute_dE_pct [0, 1, 1, 1, 1])
        = ((([0, 1, 1, 1, 1] : List ℚ).zip ([0, 1, 1, 1, 1] : List ℚ).tail).map
            (fun p => stepDiv p.2 p.1)).foldl PFloat.add (PFloat.num 0)) :=
  ⟨by norm_num, rfl, C3_zero_denominator_step [0, 1, 1, 1, 1] 0 (by norm_num) rfl⟩

/-- Claim C4: for a 5-term E sequence with non-zero first four entries, the
step-change list is `[None, (E1-E0)/E0*100, (E2-E1)/E1*100, (E3-E2)/E2*100,
(E4-E3)/E3*100]` and the net shift is the arithmetic sum of the four defined
steps (additive, not compounded); on `E = [1, 0.9, 0.81, 0.9, 1]` the steps are
`[-10, -10, 100/9, 100/9]` and the net is `20/9 ≈ +2.22`. -/
theorem C4_steps_and_net (a b c d e : ℚ)
    (ha : a ≠ 0) (hb : b ≠ 0) (hc : c ≠ 0) (hd : d ≠ 0) :
    compute_dE_pct [a, b, c, d, e]
      = [Option.none, some (PFloat.num ((b - a) / a * 100)),
          some (PFloat.num ((c - b) / b * 100)), some (PFloat.num ((d - c) / c * 100)),
          some (PFloat.num ((e - d) / d * 100))] ∧
    net (compute_dE_pct [a, b, c, d, e])
      = PFloat.num ((b - a) / a * 100 + (c - b) / b * 100 + (d - c) / c * 100
          + (e - d) / d * 100) ∧
    compute_dE_pct [1, 9/10, 81/100, 9/10, 1]
      = [Option.none, some (PFloat.num (-10)), some (PFloat.num (-10)),
          some (PFloat.num (100/9)), some (PFloat.num (100/9))] ∧
    net (compute_dE_pct [1, 9/10, 81/100, 9/10, 1]) = PFloat.num (20/9) := by
  refine ⟨?_, ?_, ?_, ?_⟩
  · simp [compute_dE_pct, stepDiv, ha, hb, hc, hd]
  · simp [net, compute_dE_pct, stepDiv, ha, hb, hc, hd, PFloat.add, List.foldl,
      List.filterMap]
  · norm_num [compute_dE_pct, stepDiv]
  · norm_num [net, compute_dE_pct, stepDiv, PFloat.add, List.foldl, List.filterMap]

/-- Witness for C4 at the spec's regression sequence `E = [1, 0.9, 0.81, 0.9, 1]`. -/
theorem C4_steps_and_net_witness :
    (1 : ℚ) ≠ 0 ∧ (9/10 : ℚ) ≠ 0 ∧ (81/100 : ℚ) ≠ 0 ∧
    compute_dE_pct [1, 9/10, 81/100, 9/10, 1]
      = [Option.none, some (PFloat.num ((9/10 - 1) / 1 * 100)),
          some (PFloat.num ((81/100 - 9/10) / (9/10) * 100)),
          some (PFloat.num ((9/10 - 81/100) / (81/100) * 100)),
          some (PFloat.num ((1 - 9/10) / (9/10) * 100))] ∧
    net (compute_dE_pct [1, 9/10, 81/100, 9/10, 1]) = PFloat.num (20/9) := by
  have hc := C4_steps_and_net 1 (9/10) (81/100) (9/10) 1
    (by norm_num) (by norm_num) (by norm_num) (by norm_num)
  exact ⟨by norm_num, by norm_num, by norm_num, hc.1, hc.2.2.2⟩

/-- Claim C7: status (and reason) depend only on `E_mean_rel`: two 5-sample
glucose sequences whose derived E sequences give the same `E_mean_rel` get the
same status and the same reason text. -/
theorem C7_status_function_of_rel (g1 g2 : List ℚ)
    (h1 : g1.length = 5) (h2 : g2.length = 5)
    (h : (classify_with_reason ((compute_T_E g1).1)).E_mean_rel
       = (classify_with_reason ((compute_T_E g2).1)).E_mean_rel) :
    (classify_with_reason ((compute_T_E g1).1)).status
      = (classify_with_reason ((compute_T_E g2).1)).status ∧
    (classify_with_reason ((compute_T_E g1).1)).reason
      = (classify_with_reason ((compute_T_E g2).1)).reason := by
  rw [classify_status, classify_status, classify_reason, classify_reason, h]
  exact ⟨rfl, rfl⟩

/-- Witness for C7 at the concrete inputs `[4,4,4,4,4]` and `[5,5,5,5,5]`
(both give `E_mean_rel = 100`). -/
theorem C7_status_function_of_rel_witness :
    (classify_with_reason ((compute_T_E [4, 4, 4, 4, 4]).1)).E_mean_rel
      = (classify_with_reason ((compute_T_E [5, 5, 5, 5, 5]).1)).E_mean_rel ∧
    (classify_with_reason ((compute_T_E [4, 4, 4, 4, 4]).1)).status
      = (classify_with_reason ((compute_T_E [5, 5, 5, 5, 5]).1)).status ∧
    (classify_with_reason ((compute_T_E [4, 4, 4, 4, 4]).1)).reason
      = (classify_with_reason ((compute_T_E [5, 5, 5, 5, 5]).1)).reason := by
  have h : (classify_with_reason ((compute_T_E [4, 4, 4, 4, 4]).1)).E_mean_rel
      = (classify_with_reason ((compute_T_E [5, 5, 5, 5, 5]).1)).E_mean_rel := by
    norm_num [classify_with_reason, compute_T_E, compute_E, compute_T, clip, listMean,
      statusReasonOf, gMin, gMax, min_def, max_def]
  have hc := C7_status_function_of_rel [4, 4, 4, 4, 4] [5, 5, 5, 5, 5] rfl rfl h
  exact ⟨h, hc.1, hc.2⟩

/-- Claim C8: every constant 5-sample input is classified GREEN: with all five
E values equal, either `E_pre ≠ 0` and `E_mean_rel = (e/e)*100 = 100`, or the
`E_pre = 0` special case also gives `E_mean_rel = 100`. -/
theorem C8_constant_input_green (g : ℚ) :
    (classify_with_reason ((compute_T_E [g, g, g, g, g]).1)).status = "GREEN" := by
  have hE : (compute_T_E [g, g, g, g, g]).1
      = [compute_E g, compute_E g, compute_E g, compute_E g, compute_E g] := rfl
  rw [classify_status, hE]
  set e := compute_E g with he
  have hmean : listMean [e, e, e, e, e] = e := by
    simp [listMean, List.sum_cons]
    ring
  have hrel : (classify_with_reason [e, e, e, e, e]).E_mean_rel = 100 := by
    rw [classify_E_mean_rel]
    by_cases h0 : e = 0
    · simp [h0]
    · simp [h0, hmean, div_self h0]
  rw [hrel, statusReasonOf_green (by norm_num : (90 : ℚ) ≤ 100)]

/-- Claim C9: the guidance generator is total over arbitrary status strings:
it returns the GREEN block exactly for "GREEN", the YELLOW block exactly for
"YELLOW", and the RED block for every other string. -/
theorem C9_guidance_total (s : String) :
    (detailed_guidance s = guidanceGreen ↔ s = "GREEN") ∧
    (detailed_guidance s = guidanceYellow ↔ s = "YELLOW") ∧
    (s ≠ "GREEN" → s ≠ "YELLOW" → detailed_guidance s = guidanceRed) := by
  by_cases hg : s = "GREEN"
  · subst hg
    have h1 : detailed_guidance "GREEN" = guidanceGreen := by simp [detailed_guidance]
    refine ⟨iff_of_true h1 rfl, iff_of_false ?_ (by decide), fun h _ => absurd rfl h⟩
    rw [h1]; decide
  · by_cases hy : s = "YELLOW"
    · subst hy
      have h1 : detailed_guidance "YELLOW" = guidanceYellow := by simp [detailed_guidance]
      refine ⟨iff_of_false ?_ (by decide), iff_of_true h1 rfl, fun _ h => absurd rfl h⟩
      rw [h1]; decide
    · have h1 : detailed_guidance s = guidanceRed := by simp [detailed_guidance, hg, hy]
      refine ⟨iff_of_false ?_ hg, iff_of_false ?_ hy, fun _ _ => h1⟩
      · rw [h1]; decide
      · rw [h1]; decide

/-- Witness for C9 at the unrecognized status string "PURPLE". -/
theorem C9_guidance_total_witness :
    "PURPLE" ≠ "GREEN" ∧ "PURPLE" ≠ "YELLOW" ∧
    detailed_guidance "PURPLE" = guidanceRed :=
  ⟨by decide, by decide, (C9_guidance_total "PURPLE").2.2 (by decide) (by decide)⟩

/-- Claim C5: the index mapper computes `T = clip((g - 3)/(25 - 3), 0, 1)` and
`E = 1 - T^2`; `g = 3` gives `T = 0, E = 1`; `g = 25` gives `T = 1, E = 0`;
and for `3 < g < 25` both T and E lie strictly between 0 and 1. -/
theorem C5_index_mapper (g : ℚ) :
    (compute_T_E [g]).1 = [compute_E g] ∧ (compute_T_E [g]).2 = [compute_T g] ∧
    compute_T g = min (max ((g - 3) / (25 - 3)) 0) 1 ∧
    compute_E g = 1 - compute_T g ^ 2 ∧
    compute_T 3 = 0 ∧ compute_E 3 = 1 ∧ compute_T 25 = 1 ∧ compute_E 25 = 0 ∧
    (3 < g → g < 25 →
      (0 < compute_T g ∧ compute_T g < 1) ∧ (0 < compute_E g ∧ compute_E g < 1)) := by
  refine ⟨rfl, rfl, rfl, rfl, ?_, ?_, ?_, ?_, ?_⟩
  · norm_num [compute_T, clip, gMin, gMax, min_def, max_def]
  · norm_num [compute_E, compute_T, clip, gMin, gMax, min_def, max_def]
  · norm_num [compute_T, clip, gMin, gMax, min_def, max_def]
  · norm_num [compute_E, compute_T, clip, gMin, gMax, min_def, max_def]
  · intro h3 h25
    have h0raw : 0 < (g - 3) / (25 - 3 : ℚ) := by
      apply div_pos <;> linarith
    have h1raw : (g - 3) / (25 - 3 : ℚ) < 1 := by
      rw [div_lt_one (by norm_num : (0 : ℚ) < 25 - 3)]
      linarith
    have hT : compute_T g = (g - 3) / (25 - 3) := by
      show clip ((g - gMin) / (gMax - gMin)) 0 1 = _
      unfold clip gMin gMax
      rw [max_eq_left h0raw.le, min_eq_left h1raw.le]
    have hT0 : 0 < compute_T g := by rw [hT]; exact h0raw
    have hT1 : compute_T g < 1 := by rw [hT]; exact h1raw
    have hE : compute_E g = 1 - compute_T g ^ 2 := rfl
    refine ⟨⟨hT0, hT1⟩, ?_, ?_⟩
    · rw [hE]; nlinarith
    · rw [hE]; nlinarith

/-- Witness for C5 at the interior glucose value `g = 14`. -/
theorem C5_index_mapper_witness :
    (3 : ℚ) < 14 ∧ (14 : ℚ) < 25 ∧
    ((0 < compute_T 14 ∧ compute_T 14 < 1) ∧ (0 < compute_E 14 ∧ compute_E 14 < 1)) :=
  ⟨by norm_num, by norm_num,
    (C5_index_mapper 14).2.2.2.2.2.2.2.2 (by norm_num) (by norm_num)⟩

/-- Claim C6 counterexample: the core performs no length validation at all:
the 4-sample input `glucose = [4, 6, 7, 6.5]` is mapped and classified
normally (status GREEN), rather than being rejected with a validation error
before any computation. -/
theorem C6_counterexample :
    (compute_T_E [4, 6, 7, 13/2]).1.length = 4 ∧
    (classify_with_reason ((compute_T_E [4, 6, 7, 13/2]).1)).status = "GREEN" := by
  constructor
  · rfl
  · norm_num [classify_with_reason, compute_T_E, compute_E, compute_T, clip, listMean,
      listMin, statusReasonOf, gMin, gMax, min_def, max_def]

/-- Claim C6 (amended): the core performs no input-length validation; any
non-empty glucose sequence, of whatever length, is processed like any other —
the mapper returns sequences of the input's length and the classifier returns
one of the three ordinary statuses.  The length-5 invariant is maintained only
by the UI layer, which always supplies exactly five values. -/
theorem C6_no_length_validation (gs : List ℚ) (h : gs ≠ []) :
    (compute_T_E gs).1.length = gs.length ∧
    (compute_T_E gs).2.length = gs.length ∧
    (compute_T_E gs).1 ≠ [] ∧
    ((classify_with_reason ((compute_T_E gs).1)).status = "GREEN" ∨
      (classify_with_reason ((compute_T_E gs).1)).status = "YELLOW" ∨
      (classify_with_reason ((compute_T_E gs).1)).status = "RED") := by
  refine ⟨by simp [compute_T_E], by simp [compute_T_E], by simp [compute_T_E, h], ?_⟩
  rw [classify_status]
  set rel := (classify_with_reason ((compute_T_E gs).1)).E_mean_rel
  rcases lt_or_le rel 75 with h75 | h75
  · right; right; rw [statusReasonOf_red h75]
  · rcases lt_or_le rel 90 with h90 | h90
    · right; left; rw [statusReasonOf_yellow h75 h90]
    · left; rw [statusReasonOf_green h90]

/-- Witness for the amended C6 at the 4-sample input `[4, 6, 7, 6.5]`. -/
theorem C6_no_length_validation_witness :
    ([4, 6, 7, 13/2] : List ℚ) ≠ [] ∧
    ((compute_T_E [4, 6, 7, 13/2]).1.length = ([4, 6, 7, 13/2] : List ℚ).length ∧
      (compute_T_E [4, 6, 7, 13/2]).2.length = ([4, 6, 7, 13/2] : List ℚ).length ∧
      (compute_T_E [4, 6, 7, 13/2]).1 ≠ [] ∧
      ((classify_with_reason ((compute_T_E [4, 6, 7, 13/2]).1)).status = "GREEN" ∨
        (classify_with_reason ((compute_T_E [4, 6, 7, 13/2]).1)).status = "YELLOW" ∨
        (classify_with_reason ((compute_T_E [4, 6, 7, 13/2]).1)).status = "RED")) :=
  ⟨by simp, C6_no_length_validation [4, 6, 7, 13/2] (by simp)⟩

/-- Claim C10: for every non-empty E sequence, the classifier's summary has
`E_min ≤ E_mean` and `E_min ≤ E_pre`, with `E_min` the minimum of the
sequence (a lower bound that is attained), `E_mean` its arithmetic mean
(mean times length equals the sum) and `E_pre` its first element. -/
theorem C10_summary_invariants (E : List ℚ) (h : E ≠ []) :
    (classify_with_reason E).E_min ≤ (classify_with_reason E).E_mean ∧
    (classify_with_reason E).E_min ≤ (classify_with_reason E).E_pre ∧
    (∀ x ∈ E, (classify_with_reason E).E_min ≤ x) ∧
    (classify_with_reason E).E_min ∈ E ∧
    (classify_with_reason E).E_mean * E.length = E.sum ∧
    (classify_with_reason E).E_pre = E.headD 0 := by
  have hlen : 0 < (E.length : ℚ) := by
    exact_mod_cast List.length_pos.mpr h
  have hmem := listMin_mem E h
  have hle : ∀ x ∈ E, listMin E ≤ x := fun x hx => listMin_le_mem E x hx
  have hsum : listMin E * E.length ≤ E.sum := mul_length_le_sum E (listMin E) hle
  refine ⟨?_, ?_, ?_, ?_, ?_, rfl⟩
  · rw [classify_E_min, classify_E_mean]
    unfold listMean
    rw [le_div_iff₀ hlen]
    exact hsum
  · obtain ⟨y, ys, rfl⟩ := List.exists_cons_of_ne_nil h
    rw [classify_E_min, classify_E_pre, List.headD_cons]
    exact hle y (List.mem_cons_self y ys)
  · intro x hx
    rw [classify_E_min]
    exact hle x hx
  · rw [classify_E_min]
    exact hmem
  · rw [classify_E_mean]
    unfold listMean
    exact div_mul_cancel₀ _ (ne_of_gt hlen)

/-- Witness for C10 at the concrete input `E = [1, 2, 3]`. -/
theorem C10_summary_invariants_witness :
    ([1, 2, 3] : List ℚ) ≠ [] ∧
    (classify_with_reason [(1 : ℚ), 2, 3]).E_min ≤ (classify_with_reason [(1 : ℚ), 2, 3]).E_mean ∧
    (classify_with_reason [(1 : ℚ), 2, 3]).E_min ≤ (classify_with_reason [(1 : ℚ), 2, 3]).E_pre ∧
    (classify_with_reason [(1 : ℚ), 2, 3]).E_min ∈ ([1, 2, 3] : List ℚ) ∧
    (classify_with_reason [(1 : ℚ), 2, 3]).E_mean * ([1, 2, 3] : List ℚ).length
      = ([1, 2, 3] : List ℚ).sum := by
  have h : ([1, 2, 3] : List ℚ) ≠ [] := by simp
  have hc := C10_summary_invariants [1, 2, 3] h
  exact ⟨h, hc.1, hc.2.1, hc.2.2.2.1, hc.2.2.2.2.1⟩

end Glucose
